import Mathlib

/-!
Verification development for the session-scoped intent router with
guardrail-gated dispatch (src/api/main.py).

Shallow embedding notes:
* Python strings are Lean `String`s; `str.lower()` is modelled by mapping
  `Char.toLower` over the characters, `str.strip()` by dropping whitespace
  characters at both ends, `needle in hay` by a contiguous-sublist scan,
  and `str.startswith(p)` by a character-prefix test.
* The session dict `user_sessions : dict[str, str]` is an association list
  with dict removal modelled as filtering out every pair with the given key.
* The two external inference calls are oracles: the guardrail's delegated
  classification call is an `Except String String` value (error message or
  rationale text), and `Runner.run_sync(manager, prompt)` is a function
  `String → RunOutcome` from the prompt to its observable outcome
  (normal output, guardrail tripwire exception, or any other exception).
* `chainlit` message sends are collected into the ordered list
  `StepResult.messages`; the prompt handed to the delegation layer is
  exposed as `StepResult.dispatched`.
-/

/-- Python `str.lower()` (ASCII case folding, which covers every keyword). -/
def pyLower (s : String) : String := ⟨s.data.map Char.toLower⟩

/-- Python `str.strip()`: drop leading and trailing whitespace. -/
def pyStrip (s : String) : String :=
  ⟨((s.data.dropWhile Char.isWhitespace).reverse.dropWhile Char.isWhitespace).reverse⟩

/-- Contiguous-sublist test on character lists, the meaning of Python `in`. -/
def isSubstrChars (needle : List Char) : List Char → Bool
  | [] => needle.isEmpty
  | c :: rest => needle.isPrefixOf (c :: rest) || isSubstrChars needle rest

/-- Python `needle in hay` for strings (contiguous substring). -/
def strContains (hay needle : String) : Bool := isSubstrChars needle.data hay.data

/-- Python `hay.startswith(pre)`. -/
def strStartsWith (hay pre : String) : Bool := pre.data.isPrefixOf hay.data

/-- The `domain_keywords` registry of src/api/main.py, in declaration order:
responder name paired with its admission keywords. -/
def domain_keywords : List (String × List String) :=
  [("WebDeveloper", ["website", "frontend", "backend", "html", "css",
                     "javascript", "react", "next.js"]),
   ("DigitalMarketer", ["seo", "marketing", "social media", "ad", "campaign",
                        "ppc", "content strategy"]),
   ("ContentWriter", ["blog", "article", "content", "write", "copywriting",
                      "post"])]

/-- The value returned by the guardrail function: the delegated model's
free-text output together with the tripwire flag. -/
structure GuardrailFunctionOutput where
  output_info : String
  tripwire_triggered : Bool
deriving DecidableEq

/-- The deterministic keyword scan of `topic_guardrail`:
`any(kw in lower for kws in domain_keywords.values() for kw in kws)`
over the lowercased request text. -/
def keywordAllowed (text : String) : Bool :=
  domain_keywords.any fun p => p.2.any fun kw => strContains (pyLower text) kw

/-- `topic_guardrail` of src/api/main.py (string-input case): computes
`allowed` from the keyword scan, then awaits the delegated classification
call. The delegated call is the oracle `delegated`; if it raises, the
exception propagates out of the guardrail (there is no handler), otherwise
its output is carried as `output_info` and
`tripwire_triggered = not allowed`. -/
def topic_guardrail (text : String) (delegated : Except String String) :
    Except String GuardrailFunctionOutput :=
  let allowed := keywordAllowed text
  match delegated with
  | Except.error e => Except.error e
  | Except.ok rationale =>
      Except.ok ⟨rationale, !allowed⟩

/-- Observable outcome of `Runner.run_sync(manager, prompt)`: a normal
final output, the `InputGuardrailTripwireTriggered` exception, or any
other exception carrying its message. -/
inductive RunOutcome where
  | ok (out : String)
  | tripwire
  | error (msg : String)
deriving DecidableEq

/-- The manager run as actually composed in the source: the input guardrail
runs on the manager's input; a failing delegated call escapes as a generic
exception, a triggered tripwire raises the tripwire exception, and otherwise
the manager produces its (oracle) output. -/
def runManager (input : String) (delegated : Except String String)
    (managerOut : String) : RunOutcome :=
  match topic_guardrail input delegated with
  | Except.error e => RunOutcome.error e
  | Except.ok g =>
      if g.tripwire_triggered then RunOutcome.tripwire else RunOutcome.ok managerOut

/-- `user_sessions : dict[str, str]`, user id to selected responder name. -/
abbrev SessionStore := List (String × String)

/-- Dict lookup: `user_sessions[user_id]` / `user_id in user_sessions`. -/
def getSession (s : SessionStore) (u : String) : Option String :=
  (s.find? fun p => p.1 == u).map Prod.snd

/-- Dict assignment `user_sessions[user_id] = d`. -/
def setSession (s : SessionStore) (u d : String) : SessionStore :=
  (u, d) :: s.filter fun p => !(p.1 == u)

/-- `user_sessions.pop(user_id, None)`: remove the key if present. -/
def popSession (s : SessionStore) (u : String) : SessionStore :=
  s.filter fun p => !(p.1 == u)

/-- Everything one call of the `main` handler produces: the ordered
outbound messages, the session store afterwards, and the prompt handed to
the delegation layer (if the guarded branch ran). -/
structure StepResult where
  messages : List String
  sessions : SessionStore
  dispatched : Option String
deriving DecidableEq

def rejectionMessage : String :=
  "Sorry, I can only help with Web Development, Marketing, or Content Writing."

def choosePromptMessage : String :=
  "Please choose one: Web Development, Marketing, or Content Writing."

def processingMessage : String := "⏳ Processing your request..."

def guardSentinel : String := "Guardrail:"

/-- Result filtering of the guarded branch: the `except` clauses of `main`
plus the sentinel check on a normal output. -/
def guardedReply : RunOutcome → String
  | RunOutcome.ok output_text =>
      if strStartsWith output_text guardSentinel then rejectionMessage else output_text
  | RunOutcome.tripwire => rejectionMessage
  | RunOutcome.error e => "Error: " ++ e

/-- The domain-selection branch of `main` (`user_id not in user_sessions`). -/
def selectionStep (sessions : SessionStore) (user_id content : String) : StepResult :=
  let text_lower := pyLower (pyStrip content)
  if strContains text_lower "web" || strContains text_lower "development" then
    ⟨["Great! You chose Web Development."],
     setSession sessions user_id "WebDeveloper", none⟩
  else if strContains text_lower "marketing" then
    ⟨["Great! You chose Marketing."],
     setSession sessions user_id "DigitalMarketer", none⟩
  else if strContains text_lower "content" || strContains text_lower "writing" then
    ⟨["Great! You chose Content Writing."],
     setSession sessions user_id "ContentWriter", none⟩
  else
    ⟨[choosePromptMessage], sessions, none⟩

/-- The guarded-request branch of `main`: send the processing notice, build
the prompt, run the manager (outcome given by the `runner` oracle on the
prompt), filter the reply, and pop the session in the `finally` block. -/
def guardedStep (sessions : SessionStore) (user_id content routed : String)
    (runner : String → RunOutcome) : StepResult :=
  let prompt := "Assign to " ++ routed ++ ": " ++ content
  ⟨[processingMessage, guardedReply (runner prompt)],
   popSession sessions user_id, some prompt⟩

/-- One call of the `@cl.on_message` handler `main` of src/api/main.py. -/
def mainStep (sessions : SessionStore) (user_id content : String)
    (runner : String → RunOutcome) : StepResult :=
  match getSession sessions user_id with
  | none => selectionStep sessions user_id content
  | some routed => guardedStep sessions user_id content routed runner

/-! ### Session-store helper lemmas -/

theorem getSession_popSession (s : SessionStore) (u : String) :
    getSession (popSession s u) u = none := by
  simp only [getSession, popSession, Option.map_eq_none']
  rw [List.find?_eq_none]
  intro x hx
  have h2 := (List.mem_filter.mp hx).2
  simp only [Bool.not_eq_true'] at h2
  simp [h2]

theorem getSession_setSession (s : SessionStore) (u d : String) :
    getSession (setSession s u d) u = some d := by
  simp [getSession, setSession]

theorem mainStep_of_none {s : SessionStore} {u : String} (c : String)
    (runner : String → RunOutcome) (hnone : getSession s u = none) :
    mainStep s u c runner = selectionStep s u c := by
  simp [mainStep, hnone]

theorem mainStep_of_some {s : SessionStore} {u d : String} (c : String)
    (runner : String → RunOutcome) (hd : getSession s u = some d) :
    mainStep s u c runner = guardedStep s u c d runner := by
  simp [mainStep, hd]

/-! ### Claim theorems -/

/-- C1: a request text containing none of the configured keywords of any
domain (case-insensitively, as a substring) yields an admission result with
the tripwire triggered (allowed = false), whatever rationale the delegated
model returns: the flag comes only from the deterministic keyword scan. -/
theorem topic_guardrail_no_keyword_rejects (text rationale : String)
    (h : ∀ p ∈ domain_keywords, ∀ kw ∈ p.2, strContains (pyLower text) kw = false) :
    topic_guardrail text (Except.ok rationale) = Except.ok ⟨rationale, true⟩ := by
  have hall : keywordAllowed text = false := by
    apply List.any_eq_false.mpr
    intro p hp hcontra
    obtain ⟨kw, hkw, hc⟩ := List.any_eq_true.mp hcontra
    have hc2 : strContains (pyLower text) kw = true := hc
    rw [h p hp kw hkw] at hc2
    exact Bool.false_ne_true hc2
  simp [topic_guardrail, hall]

theorem topic_guardrail_no_keyword_rejects_witness :
    topic_guardrail "xyz" (Except.ok "model says fine") =
      Except.ok ⟨"model says fine", true⟩ :=
  topic_guardrail_no_keyword_rejects "xyz" "model says fine" (by decide)

/-- C2: for a user with a stored domain selection, one call of the handler
on a guarded request removes the session entry whatever the run outcome
(normal output, tripwire, or any other exception), so the next message
starts a fresh domain selection. -/
theorem session_cleared_after_guarded_request (s : SessionStore)
    (u c d : String) (runner : String → RunOutcome)
    (hd : getSession s u = some d) :
    getSession (mainStep s u c runner).sessions u = none := by
  rw [mainStep_of_some c runner hd]
  simp only [guardedStep]
  exact getSession_popSession s u

theorem session_cleared_after_guarded_request_witness :
    getSession (mainStep [("u", "WebDeveloper")] "u" "hello"
      (fun _ => RunOutcome.tripwire)).sessions "u" = none :=
  session_cleared_after_guarded_request [("u", "WebDeveloper")] "u" "hello"
    "WebDeveloper" (fun _ => RunOutcome.tripwire) (by decide)

/-- C4: the delegated classification call inside `topic_guardrail` has no
exception handler, so on failure the guardrail produces no admission result
at all — the error propagates — even though the deterministic keyword check
would have admitted the request ("blog"/"write"/"post" all match). -/
theorem topic_guardrail_delegated_failure_propagates :
    topic_guardrail "write a blog post" (Except.error "timeout") =
      Except.error "timeout" ∧
    keywordAllowed "write a blog post" = true := by
  constructor
  · rfl
  · decide

/-- C10: the deterministic check is a raw substring scan of the lowercased
request text: any text containing any configured keyword as a substring —
also inside a larger word — is admitted (tripwire not triggered),
regardless of the delegated model's rationale. -/
theorem substring_match_admits (text rationale : String)
    (h : ∃ p ∈ domain_keywords, ∃ kw ∈ p.2, strContains (pyLower text) kw = true) :
    topic_guardrail text (Except.ok rationale) = Except.ok ⟨rationale, false⟩ := by
  have hall : keywordAllowed text = true := by
    obtain ⟨p, hp, kw, hkw, hc⟩ := h
    apply List.any_eq_true.mpr
    refine ⟨p, hp, List.any_eq_true.mpr ⟨kw, hkw, ?_⟩⟩
    exact hc
  simp [topic_guardrail, hall]

theorem substring_match_admits_witness :
    topic_guardrail "the shadow falls at dusk" (Except.ok "off topic") =
      Except.ok ⟨"off topic", false⟩ :=
  substring_match_admits "the shadow falls at dusk" "off topic" (by decide)

/-- C5: for a user with no session, a message containing "web" or
"development" (case-insensitively, after stripping) stores the domain
WebDeveloper, and every later guarded message from that user is dispatched
with the prompt that names the WebDeveloper role and carries the verbatim
user text. -/
theorem web_selection_then_dispatch (s : SessionStore) (u c : String)
    (runner : String → RunOutcome)
    (hnone : getSession s u = none)
    (hweb : (strContains (pyLower (pyStrip c)) "web" ||
             strContains (pyLower (pyStrip c)) "development") = true) :
    getSession (mainStep s u c runner).sessions u = some "WebDeveloper" ∧
    ∀ c2 runner2,
      (mainStep (mainStep s u c runner).sessions u c2 runner2).dispatched =
        some ("Assign to WebDeveloper: " ++ c2) := by
  have hsess : (mainStep s u c runner).sessions = setSession s u "WebDeveloper" := by
    rw [mainStep_of_none c runner hnone]
    simp [selectionStep, hweb]
  have hget : getSession (mainStep s u c runner).sessions u = some "WebDeveloper" := by
    rw [hsess]; exact getSession_setSession s u "WebDeveloper"
  refine ⟨hget, fun c2 runner2 => ?_⟩
  rw [mainStep_of_some c2 runner2 hget]
  have happ : ("Assign to " ++ "WebDeveloper") ++ ": " = "Assign to WebDeveloper: " := rfl
  simp only [guardedStep]
  rw [happ]

theorem web_selection_then_dispatch_witness :
    getSession (mainStep [] "u" "I need web help"
        (fun _ => RunOutcome.tripwire)).sessions "u" = some "WebDeveloper" ∧
    (mainStep (mainStep [] "u" "I need web help"
        (fun _ => RunOutcome.tripwire)).sessions "u" "build me a landing page"
        (fun _ => RunOutcome.tripwire)).dispatched =
      some ("Assign to WebDeveloper: " ++ "build me a landing page") := by
  obtain ⟨h1, h2⟩ := web_selection_then_dispatch [] "u" "I need web help"
    (fun _ => RunOutcome.tripwire) (by decide) (by decide)
  exact ⟨h1, h2 "build me a landing page" (fun _ => RunOutcome.tripwire)⟩

/-- C6: for a user with no session, a message matching no selection keyword
gets the re-prompt message and leaves the session store exactly as it was,
so the user stays in the no-session state. -/
theorem no_match_reprompts_and_preserves_sessions (s : SessionStore)
    (u c : String) (runner : String → RunOutcome)
    (hnone : getSession s u = none)
    (h1 : (strContains (pyLower (pyStrip c)) "web" ||
           strContains (pyLower (pyStrip c)) "development") = false)
    (h2 : strContains (pyLower (pyStrip c)) "marketing" = false)
    (h3 : (strContains (pyLower (pyStrip c)) "content" ||
           strContains (pyLower (pyStrip c)) "writing") = false) :
    (mainStep s u c runner).messages = [choosePromptMessage] ∧
    (mainStep s u c runner).sessions = s := by
  rw [mainStep_of_none c runner hnone]
  simp [selectionStep, h1, h2, h3]

theorem no_match_reprompts_witness :
    (mainStep [] "u" "what is the weather today"
        (fun _ => RunOutcome.tripwire)).messages = [choosePromptMessage] ∧
    (mainStep [] "u" "what is the weather today"
        (fun _ => RunOutcome.tripwire)).sessions = [] :=
  no_match_reprompts_and_preserves_sessions [] "u" "what is the weather today"
    (fun _ => RunOutcome.tripwire) (by decide) (by decide) (by decide) (by decide)

/-- C9: selection is a fixed priority chain: "web"/"development" wins over
everything, then "marketing", then "content"/"writing", whatever else the
text contains. -/
theorem selection_priority_order (s : SessionStore) (u c : String)
    (runner : String → RunOutcome) (hnone : getSession s u = none) :
    ((strContains (pyLower (pyStrip c)) "web" ||
      strContains (pyLower (pyStrip c)) "development") = true →
      getSession (mainStep s u c runner).sessions u = some "WebDeveloper") ∧
    ((strContains (pyLower (pyStrip c)) "web" ||
      strContains (pyLower (pyStrip c)) "development") = false →
      strContains (pyLower (pyStrip c)) "marketing" = true →
      getSession (mainStep s u c runner).sessions u = some "DigitalMarketer") ∧
    ((strContains (pyLower (pyStrip c)) "web" ||
      strContains (pyLower (pyStrip c)) "development") = false →
      strContains (pyLower (pyStrip c)) "marketing" = false →
      (strContains (pyLower (pyStrip c)) "content" ||
       strContains (pyLower (pyStrip c)) "writing") = true →
      getSession (mainStep s u c runner).sessions u = some "ContentWriter") := by
  rw [mainStep_of_none c runner hnone]
  refine ⟨fun h1 => ?_, fun h1 h2 => ?_, fun h1 h2 h3 => ?_⟩
  · simp [selectionStep, h1, getSession_setSession]
  · simp [selectionStep, h1, h2, getSession_setSession]
  · simp [selectionStep, h1, h2, h3, getSession_setSession]

theorem selection_priority_order_witness :
    getSession (mainStep [] "u" "web marketing content writing"
        (fun _ => RunOutcome.tripwire)).sessions "u" = some "WebDeveloper" :=
  (selection_priority_order [] "u" "web marketing content writing"
    (fun _ => RunOutcome.tripwire) (by decide)).1 (by decide)

/-- C7 counterexample: the source checks `startswith`, not containment — a
normal output that contains the sentinel "Guardrail:" other than as a
prefix is delivered to the user verbatim, not replaced by the rejection
message. -/
theorem sentinel_inside_output_leaks :
    (mainStep [("u", "WebDeveloper")] "u" "build a site"
        (fun _ => RunOutcome.ok "Note Guardrail: denied")).messages =
      [processingMessage, "Note Guardrail: denied"] ∧
    strContains "Note Guardrail: denied" guardSentinel = true := by
  constructor
  · decide
  · decide

/-- C7 (amended): on a guarded request whose run returns a normal output,
the handler emits the rejection message when the output starts with the
sentinel "Guardrail:", and the output verbatim otherwise. -/
theorem sentinel_prefix_filtered (s : SessionStore) (u c d out : String)
    (runner : String → RunOutcome)
    (hd : getSession s u = some d)
    (hrun : runner ("Assign to " ++ d ++ ": " ++ c) = RunOutcome.ok out) :
    (mainStep s u c runner).messages =
      [processingMessage,
       if strStartsWith out guardSentinel then rejectionMessage else out] := by
  rw [mainStep_of_some c runner hd]
  simp only [guardedStep, hrun, guardedReply]

theorem sentinel_prefix_filtered_witness :
    (mainStep [("u", "WebDeveloper")] "u" "fix my css"
        (fun _ => RunOutcome.ok "Guardrail: input rejected")).messages =
      [processingMessage, rejectionMessage] := by
  have h := sentinel_prefix_filtered [("u", "WebDeveloper")] "u" "fix my css"
    "WebDeveloper" "Guardrail: input rejected"
    (fun _ => RunOutcome.ok "Guardrail: input rejected") (by decide) rfl
  have hb : strStartsWith "Guardrail: input rejected" guardSentinel = true := by decide
  rw [h, hb]
  simp

/-- C8: every error raised during delegation is caught at the handler
boundary and becomes exactly one user-visible message after the processing
notice — the standard rejection for a guardrail tripwire, and a generic
"Error: …" message carrying the cause for any other exception. -/
theorem delegation_errors_converted (s : SessionStore) (u c d : String)
    (runner : String → RunOutcome)
    (hd : getSession s u = some d) :
    (runner ("Assign to " ++ d ++ ": " ++ c) = RunOutcome.tripwire →
      (mainStep s u c runner).messages = [processingMessage, rejectionMessage]) ∧
    (∀ e, runner ("Assign to " ++ d ++ ": " ++ c) = RunOutcome.error e →
      (mainStep s u c runner).messages = [processingMessage, "Error: " ++ e]) := by
  rw [mainStep_of_some c runner hd]
  constructor
  · intro h
    simp only [guardedStep, h, guardedReply]
  · intro e h
    simp only [guardedStep, h, guardedReply]

theorem delegation_errors_converted_witness :
    (mainStep [("u", "ContentWriter")] "u" "hello"
        (fun _ => RunOutcome.tripwire)).messages =
      [processingMessage, rejectionMessage] :=
  (delegation_errors_converted [("u", "ContentWriter")] "u" "hello"
    "ContentWriter" (fun _ => RunOutcome.tripwire) (by decide)).1 rfl

/-- C3 counterexample: for a stored DigitalMarketer session, the request
"write me a poem about cats" is admitted, not rejected — the keyword scan
spans the full registry and "write" is a ContentWriter keyword — so the
guardrail does not trip and the handler emits the manager output instead of
the rejection message. -/
theorem marketing_poem_request_admitted :
    topic_guardrail "write me a poem about cats" (Except.ok "r") =
      Except.ok ⟨"r", false⟩ ∧
    topic_guardrail "Assign to DigitalMarketer: write me a poem about cats"
        (Except.ok "r") = Except.ok ⟨"r", false⟩ ∧
    (mainStep [("u", "DigitalMarketer")] "u" "write me a poem about cats"
        (fun p => runManager p (Except.ok "r") "A cat poem")).messages =
      [processingMessage, "A cat poem"] := by
  refine ⟨rfl, rfl, by decide⟩

/-- C3 (amended): a user with stored domain DigitalMarketer who sends
"write me a poem about cats" has the request admitted (allowed = true,
since the full-registry scan finds the ContentWriter keyword "write"); the
handler emits the manager output rather than the rejection message
(whenever that output does not start with the sentinel), and the session is
cleared afterward. -/
theorem marketing_poem_request_flows_to_manager (rationale managerOut : String)
    (hout : strStartsWith managerOut guardSentinel = false) :
    (mainStep [("u", "DigitalMarketer")] "u" "write me a poem about cats"
        (fun p => runManager p (Except.ok rationale) managerOut)).messages =
      [processingMessage, managerOut] ∧
    getSession (mainStep [("u", "DigitalMarketer")] "u"
        "write me a poem about cats"
        (fun p => runManager p (Except.ok rationale) managerOut)).sessions
      "u" = none := by
  have hd : getSession [("u", "DigitalMarketer")] "u" = some "DigitalMarketer" := by
    decide
  rw [mainStep_of_some "write me a poem about cats"
    (fun p => runManager p (Except.ok rationale) managerOut) hd]
  have hkw : keywordAllowed
      ("Assign to " ++ "DigitalMarketer" ++ ": " ++ "write me a poem about cats") =
      true := by decide
  constructor
  · simp only [guardedStep, runManager, topic_guardrail, hkw]
    simp [guardedReply, hout]
  · simp only [guardedStep]
    exact getSession_popSession [("u", "DigitalMarketer")] "u"

theorem marketing_poem_request_flows_to_manager_witness :
    (mainStep [("u", "DigitalMarketer")] "u" "write me a poem about cats"
        (fun p => runManager p (Except.ok "r") "A cat poem")).messages =
      [processingMessage, "A cat poem"] ∧
    getSession (mainStep [("u", "DigitalMarketer")] "u"
        "write me a poem about cats"
        (fun p => runManager p (Except.ok "r") "A cat poem")).sessions
      "u" = none :=
  marketing_poem_request_flows_to_manager "r" "A cat poem" (by decide)
